import Mathlib

/-!
# Verification of the Ariel dubbing orchestrator against its specification

This development embeds the stage orchestrator of `ariel/dubbing.py`
(class `Dubber`) as an explicit state machine, together with the two
supporting protocols of the specification: the remote asset readiness
poller and the diarization response parser.  The module
`ariel/speech_to_text.py` is not part of the sources at hand (only its
test file is), so the poller, the parser and `add_speaker_info` are
modelled from the specification text; every other definition is a
direct translation of `ariel/dubbing.py`.
-/

namespace Ariel

/-! ## Remote Asset Readiness Poller (spec section 4.2)

Modelled from the spec: `ariel/speech_to_text.py` is not among the
sources; the poller is built from the contract of section 4.2.
A remote asset handle exposes a mutable state, observed through a
status query; the poller re-queries at a fixed interval until the
handle is `active` or `failed`, or the wall-clock budget `max_wait`
is exhausted. -/

/-- States a remote asset handle can report (spec section 3). -/
inductive AssetState where
  | pending
  | active
  | failed
deriving DecidableEq, Repr

/-- The two terminal-failure kinds of the poller (spec section 7):
exceeding the budget while still pending, versus a remote-reported
failure. -/
inductive PollError where
  | remoteAssetTimeout
  | remoteAssetFailed
deriving DecidableEq, Repr

/-- Modelled from the spec: the polling loop.  `query k` is the result
of the k-th status query (the handle is folded into the query
function); `budget` is the number of sleeps still allowed.  On success
the returned number is the index of the query that observed `active`,
that is, the number of re-queries performed. -/
def waitLoop (query : Nat → AssetState) : Nat → Nat → Except PollError Nat
  | 0, k =>
    match query k with
    | AssetState.active => Except.ok k
    | AssetState.failed => Except.error PollError.remoteAssetFailed
    | AssetState.pending => Except.error PollError.remoteAssetTimeout
  | b + 1, k =>
    match query k with
    | AssetState.active => Except.ok k
    | AssetState.failed => Except.error PollError.remoteAssetFailed
    | AssetState.pending => waitLoop query b (k + 1)

/-- Modelled from the spec: `wait_until_active(handle, query_status,
max_wait, poll_interval)`.  Queries happen at times 0, `poll_interval`,
2 * `poll_interval`, ...; the number of sleeps that fit into the
budget is `max_wait / poll_interval`. -/
def wait_until_active (query : Nat → AssetState) (max_wait poll_interval : Nat) :
    Except PollError Nat :=
  waitLoop query (max_wait / poll_interval) 0

/-! ## Diarization Response Parser (spec section 4.3)

Modelled from the spec: the parser converts a text block of zero or
more lines of the literal shape `(speaker_label, gender_label)` into
an ordered sequence of tuples; a malformed line (wrong token count or
missing parentheses) is a `ParseError` naming the offending line. -/

/-- Error kind of the parser (spec section 7), carrying the offending
line. -/
inductive ParseError where
  | malformedLine : String → ParseError
deriving DecidableEq, Repr

/-- Split a character list at every occurrence of the separator. -/
def splitOnChar (c : Char) : List Char → List (List Char)
  | [] => [[]]
  | x :: xs =>
    match splitOnChar c xs with
    | [] => [[x]]
    | y :: ys => if x = c then [] :: y :: ys else (x :: y) :: ys

/-- Drop leading space characters. -/
def dropLeadingSpaces : List Char → List Char
  | [] => []
  | c :: cs => if c = ' ' then dropLeadingSpaces cs else c :: cs

/-- Drop leading and trailing space characters. -/
def trimChars (l : List Char) : List Char :=
  dropLeadingSpaces ((dropLeadingSpaces l.reverse).reverse)

/-- Modelled from the spec: the non-empty lines of the response text.
The empty string holds zero speaker declarations. -/
def splitLines (s : String) : List String :=
  ((splitOnChar '\n' s.data).map (fun l => String.mk l)).filter (fun l => l ≠ "")

/-- Modelled from the spec: one line of the literal shape
`(speaker_label, gender_label)`; a line without the surrounding
parentheses or with a token count other than two is malformed. -/
def parseLine (line : String) : Option (String × String) :=
  let l := line.data
  match l.head?, l.getLast? with
  | some c0, some c1 =>
    if c0 = '(' && c1 = ')' then
      match splitOnChar ',' ((l.drop 1).dropLast) with
      | [a, b] => some (String.mk (trimChars a), String.mk (trimChars b))
      | _ => none
    else none
  | _, _ => none

/-- Modelled from the spec: parse a list of lines in order, stopping
with a `ParseError` naming the first malformed line. -/
def processLines : List String → Except ParseError (List (String × String))
  | [] => Except.ok []
  | l :: ls =>
    match parseLine l with
    | some p => (processLines ls).map (fun r => p :: r)
    | none => Except.error (ParseError.malformedLine l)

/-- Modelled from the spec: `process_speaker_diarization_response`. -/
def process_speaker_diarization_response (response : String) :
    Except ParseError (List (String × String)) :=
  processLines (splitLines response)

/-! ## Attribution application (spec section 4.4)

Modelled from the spec: `add_speaker_info` lives in the missing
`ariel/speech_to_text.py`; its contract is spec sections 4.4 and 8. -/

/-- Error kind for mismatched attribution lengths (spec section 7). -/
inductive AttributionError where
  | attributionMismatch : String → AttributionError
deriving DecidableEq, Repr

/-- Modelled from the spec: an utterance record with the fields used
by the attribution stage; `speaker_id` and `gender` are absent until
diarization sets them (spec section 3). -/
structure Utterance where
  text : String
  start : Rat
  stop : Rat
  speaker_id : Option String
  gender : Option String
deriving DecidableEq, Repr

/-- Attach one speaker attribution tuple to one utterance, leaving all
prior fields unchanged. -/
def attachSpeaker (u : Utterance) (p : String × String) : Utterance :=
  { u with speaker_id := some p.1, gender := some p.2 }

/-- Modelled from the spec: `add_speaker_info` requires the two lists
to have equal length and assigns attribution tuples positionally. -/
def add_speaker_info (utterance_metadata : List Utterance)
    (speaker_info : List (String × String)) :
    Except AttributionError (List Utterance) :=
  if utterance_metadata.length = speaker_info.length then
    Except.ok (List.zipWith attachSpeaker utterance_metadata speaker_info)
  else
    Except.error (AttributionError.attributionMismatch
      "The length of utterance metadata and speaker info must be the same.")

/-! ## Stage Orchestrator (`ariel/dubbing.py`, class `Dubber`)

The orchestrator is embedded as an explicit state machine.  External
collaborator calls (`video_processing`, `audio_processing`,
`speech_to_text`, `translation`, `text_to_speech`, `tf.io.gfile`) are
parameters of the model, each a deterministic, possibly failing
function, matching the collaborator contracts of spec section 6.  The
type `μ` stands for the utterance metadata threaded through the
stages.

Caching: in the source each `..._output` accessor is a
`functools.cached_property`; it is embedded as one optional cache slot
per accessor, filled on first successful access and read thereafter
(Python's `cached_property` does not cache exceptions).  The accessor
bodies name their underlying computations without the `run_` prefix
(for example `self.speech_to_text()` on line 552); the embedding
resolves each such name to the `run_` method of the class, the way the
specification reads them.  In particular the resolved body of
`translation_output` (line 556) and of `text_to_speech_output`
(line 560) is `run_speech_to_text`, exactly as in the source.

Two locals read before assignment in the source (`utterance_metadata`
on lines 434 and 459) are resolved as the accessor value the stage
already reads, per the stage's data flow.

Each stage body records one trace event on entry, and updates the
progress counter exactly where the source calls
`self.progress_bar.update(1)`. -/

/-- Errors of the orchestrator: a failure reported by an external
collaborator, or a ValueError raised by the orchestrator itself. -/
inductive Err where
  | collab : String → Err
  | valueError : String → Err
deriving DecidableEq, Repr

/-- Trace events: one per stage-body execution. -/
inductive Ev where
  | preprocessing
  | speechToText
  | translationStage
  | textToSpeech
  | saveMetadata
  | postprocessing
  | cleanDirectory
deriving DecidableEq, Repr

/-- Number of occurrences of an event in a trace. -/
def countEv (e : Ev) (l : List Ev) : Nat :=
  (l.filter (fun x => decide (x = e))).length

/-- `PreprocessingArtifacts` of `dubbing.py` (lines 124-141);
`video_file` is `None` for audio-only input. -/
structure PreprocessingArtifacts (μ : Type) where
  video_file : Option String
  audio_file : String
  audio_background_file : String
  utterance_metadata : μ
deriving DecidableEq, Repr

/-- The `Dubber` constructor arguments the orchestrator logic reads. -/
structure DubberConfig where
  input_file : String
  output_directory : String
  is_video : Bool
  merge_utterances : Bool
  clean_up : Bool
deriving DecidableEq, Repr

/-- Per-run mutable state: one cache slot per cached accessor, the
progress counter, the chronological trace of stage-body executions,
the number of warning-level log records, and the basenames deleted by
the cleanup stage. -/
structure RunState (μ : Type) where
  preprocCache : Option (PreprocessingArtifacts μ)
  sttCache : Option μ
  translationCache : Option μ
  ttsCache : Option μ
  postCache : Option String
  progress : Nat
  trace : List Ev
  warnings : Nat
  deleted : List String
deriving DecidableEq, Repr

/-- The fresh state of a new run. -/
def initialState (μ : Type) : RunState μ :=
  { preprocCache := none, sttCache := none, translationCache := none,
    ttsCache := none, postCache := none, progress := 0, trace := [],
    warnings := 0, deleted := [] }

/-- Record a stage-body execution. -/
def addEv (s : RunState μ) (e : Ev) : RunState μ :=
  { s with trace := s.trace ++ [e] }

/-- `self.progress_bar.update(1)`. -/
def bump (s : RunState μ) : RunState μ :=
  { s with progress := s.progress + 1 }

/-- `logging.warning(...)`. -/
def warn (s : RunState μ) : RunState μ :=
  { s with warnings := s.warnings + 1 }

/-- Record a deletion performed by the cleanup stage. -/
def delFile (s : RunState μ) (filename : String) : RunState μ :=
  { s with deleted := s.deleted ++ [filename] }

/-- `os.path.join` for the cases the orchestrator uses: the output
directory is a plain directory name without a trailing separator, so
the join inserts exactly one separator. -/
def ospath_join (a b : String) : String :=
  a ++ "/" ++ b

/-- `_UTTERNACE_METADATA_FILE_NAME` (line 29). -/
def utterance_metadata_file_name : String := "utterance_metadata.json"

/-- `_NUMBER_OF_STEPS` (line 63). -/
def number_of_steps : Nat := 6

/-- The `total` passed to the progress bar (lines 541-544). -/
def progress_bar_total (clean_up : Bool) : Nat :=
  if clean_up then number_of_steps else number_of_steps - 1

/-- The external collaborators invoked by the stage bodies, one field
per call site in `dubbing.py`, each deterministic and possibly
failing. -/
structure Collaborators (μ : Type) where
  split_audio_video : String → String → Except Err (String × String)
  execute_demucs_command : String → Except Err Unit
  assemble_background : String → String
  create_pyannote_timestamps : String → Except Err μ
  cut_and_save_audio : μ → String → String → Except Err μ
  transcribe_audio_chunks : μ → Except Err μ
  diarize_speakers : String → μ → Except Err (List (String × String))
  add_speaker_info : μ → List (String × String) → Except Err μ
  generate_script : μ → Except Err String
  translate_script : String → Except Err String
  add_translations : μ → String → Except Err μ
  merge_utterances : μ → Except Err μ
  assign_voices : μ → Except Err (List String)
  update_utterance_metadata : μ → List String → Except Err μ
  dub_utterances : μ → String → Except Err μ
  write_metadata_file : String → μ → Except Err Unit
  insert_audio_at_timestamps : μ → String → String → Except Err String
  merge_background_and_vocals : String → String → String → Except Err String
  combine_audio_video : String → String → String → Except Err String
  listdir : Except Err (List String)
  gfile_exists : String → Bool
  gfile_isdir : String → Bool
  gfile_remove : String → Except Err Unit
  rmtree : String → Except Err Unit

/-- `audio_processing.build_demucs_command` (pure, line 354). -/
def build_demucs_command (audio_file output_directory : String) : String :=
  "demucs " ++ audio_file ++ " " ++ output_directory

/-- Shared tail of `run_preprocessing` after the audio/video split. -/
def preprocessCommon (d : DubberConfig) (C : Collaborators μ) (s : RunState μ)
    (video_file : Option String) (audio_file : String) :
    Except Err (PreprocessingArtifacts μ) × RunState μ :=
  let demucs_command := build_demucs_command audio_file d.output_directory
  match C.execute_demucs_command demucs_command with
  | Except.error e => (Except.error e, s)
  | Except.ok _ =>
    let audio_background_file := C.assemble_background demucs_command
    match C.create_pyannote_timestamps audio_file with
    | Except.error e => (Except.error e, s)
    | Except.ok um0 =>
      match C.cut_and_save_audio um0 audio_file d.output_directory with
      | Except.error e => (Except.error e, s)
      | Except.ok um =>
        (Except.ok { video_file := video_file, audio_file := audio_file,
                     audio_background_file := audio_background_file,
                     utterance_metadata := um }, bump s)

/-- `Dubber.run_preprocessing` (lines 340-380). -/
def run_preprocessing (d : DubberConfig) (C : Collaborators μ) (s : RunState μ) :
    Except Err (PreprocessingArtifacts μ) × RunState μ :=
  let s := addEv s Ev.preprocessing
  if d.is_video then
    match C.split_audio_video d.input_file d.output_directory with
    | Except.error e => (Except.error e, s)
    | Except.ok (video_file, audio_file) =>
      preprocessCommon d C s (some video_file) audio_file
  else
    preprocessCommon d C s none d.input_file

/-- `Dubber.preprocesing_output` (lines 546-548): a cached property
whose resolved body is `run_preprocessing`. -/
def preprocesing_output (d : DubberConfig) (C : Collaborators μ) (s : RunState μ) :
    Except Err (PreprocessingArtifacts μ) × RunState μ :=
  match s.preprocCache with
  | some v => (Except.ok v, s)
  | none =>
    match run_preprocessing d C s with
    | (Except.ok v, s1) => (Except.ok v, { s1 with preprocCache := some v })
    | (Except.error e, s1) => (Except.error e, s1)

/-- `Dubber.run_speech_to_text` (lines 382-414). -/
def run_speech_to_text (d : DubberConfig) (C : Collaborators μ) (s : RunState μ) :
    Except Err μ × RunState μ :=
  let s := addEv s Ev.speechToText
  match preprocesing_output d C s with
  | (Except.error e, s1) => (Except.error e, s1)
  | (Except.ok pre, s1) =>
    let media_file := pre.video_file.getD pre.audio_file
    match C.transcribe_audio_chunks pre.utterance_metadata with
    | Except.error e => (Except.error e, s1)
    | Except.ok um1 =>
      match C.diarize_speakers media_file um1 with
      | Except.error e => (Except.error e, s1)
      | Except.ok speaker_info =>
        match C.add_speaker_info um1 speaker_info with
        | Except.error e => (Except.error e, s1)
        | Except.ok um2 => (Except.ok um2, bump s1)

/-- `Dubber.speech_to_text_output` (lines 550-552): a cached property
whose resolved body is `run_speech_to_text`. -/
def speech_to_text_output (d : DubberConfig) (C : Collaborators μ) (s : RunState μ) :
    Except Err μ × RunState μ :=
  match s.sttCache with
  | some v => (Except.ok v, s)
  | none =>
    match run_speech_to_text d C s with
    | (Except.ok v, s1) => (Except.ok v, { s1 with sttCache := some v })
    | (Except.error e, s1) => (Except.error e, s1)

/-- `Dubber.translation_output` (lines 554-556): a cached property
whose body, as written in the source, invokes the speech-to-text
computation (`self.speech_to_text()`), not `run_translation`. -/
def translation_output (d : DubberConfig) (C : Collaborators μ) (s : RunState μ) :
    Except Err μ × RunState μ :=
  match s.translationCache with
  | some v => (Except.ok v, s)
  | none =>
    match run_speech_to_text d C s with
    | (Except.ok v, s1) => (Except.ok v, { s1 with translationCache := some v })
    | (Except.error e, s1) => (Except.error e, s1)

/-- `Dubber.text_to_speech_output` (lines 558-560): a cached property
whose body, as written in the source, invokes the speech-to-text
computation (`self.speech_to_text()`), not `run_text_to_speech`. -/
def text_to_speech_output (d : DubberConfig) (C : Collaborators μ) (s : RunState μ) :
    Except Err μ × RunState μ :=
  match s.ttsCache with
  | some v => (Except.ok v, s)
  | none =>
    match run_speech_to_text d C s with
    | (Except.ok v, s1) => (Except.ok v, { s1 with ttsCache := some v })
    | (Except.error e, s1) => (Except.error e, s1)

/-- `Dubber.run_translation` (lines 416-444). -/
def run_translation (d : DubberConfig) (C : Collaborators μ) (s : RunState μ) :
    Except Err μ × RunState μ :=
  let s := addEv s Ev.translationStage
  match speech_to_text_output d C s with
  | (Except.error e, s1) => (Except.error e, s1)
  | (Except.ok stt, s1) =>
    match C.generate_script stt with
    | Except.error e => (Except.error e, s1)
    | Except.ok script =>
      match C.translate_script script with
      | Except.error e => (Except.error e, s1)
      | Except.ok translated_script =>
        match C.add_translations stt translated_script with
        | Except.error e => (Except.error e, s1)
        | Except.ok um1 =>
          if d.merge_utterances then
            match C.merge_utterances um1 with
            | Except.error e => (Except.error e, s1)
            | Except.ok um2 => (Except.ok um2, bump s1)
          else (Except.ok um1, bump s1)

/-- `Dubber.run_text_to_speech` (lines 446-469). -/
def run_text_to_speech (d : DubberConfig) (C : Collaborators μ) (s : RunState μ) :
    Except Err μ × RunState μ :=
  let s := addEv s Ev.textToSpeech
  match translation_output d C s with
  | (Except.error e, s1) => (Except.error e, s1)
  | (Except.ok tr, s1) =>
    match C.assign_voices tr with
    | Except.error e => (Except.error e, s1)
    | Except.ok assigned_voices =>
      match C.update_utterance_metadata tr assigned_voices with
      | Except.error e => (Except.error e, s1)
      | Except.ok um1 =>
        match C.dub_utterances um1 d.output_directory with
        | Except.error e => (Except.error e, s1)
        | Except.ok um2 => (Except.ok um2, bump s1)

/-- `Dubber.run_save_utterance_metadata` (lines 522-539): the whole
write, including the accessor read of `text_to_speech_output` inside
the `try` block, is swallowed into a warning-level log on failure; the
metadata file path is returned in every case, and the progress bar is
not updated. -/
def run_save_utterance_metadata (d : DubberConfig) (C : Collaborators μ) (s : RunState μ) :
    Except Err String × RunState μ :=
  let s := addEv s Ev.saveMetadata
  let utterance_metadata_file := ospath_join d.output_directory utterance_metadata_file_name
  match text_to_speech_output d C s with
  | (Except.error _, s1) => (Except.ok utterance_metadata_file, warn s1)
  | (Except.ok um, s1) =>
    match C.write_metadata_file utterance_metadata_file um with
    | Except.error _ => (Except.ok utterance_metadata_file, warn s1)
    | Except.ok _ => (Except.ok utterance_metadata_file, s1)

/-- `Dubber.run_postprocessing` (lines 471-502). -/
def run_postprocessing (d : DubberConfig) (C : Collaborators μ) (s : RunState μ) :
    Except Err String × RunState μ :=
  let s := addEv s Ev.postprocessing
  match text_to_speech_output d C s with
  | (Except.error e, s1) => (Except.error e, s1)
  | (Except.ok um, s1) =>
    match preprocesing_output d C s1 with
    | (Except.error e, s2) => (Except.error e, s2)
    | (Except.ok pre, s2) =>
      match C.insert_audio_at_timestamps um pre.audio_background_file d.output_directory with
      | Except.error e => (Except.error e, s2)
      | Except.ok dubbed_audio_vocals_file =>
        match C.merge_background_and_vocals pre.audio_background_file
            dubbed_audio_vocals_file d.output_directory with
        | Except.error e => (Except.error e, s2)
        | Except.ok dubbed_audio_file =>
          if d.is_video then
            match pre.video_file with
            | none =>
              (Except.error (Err.valueError
                "A video file must be provided if the input file is a video."), s2)
            | some video_file =>
              match C.combine_audio_video video_file dubbed_audio_file d.output_directory with
              | Except.error e => (Except.error e, s2)
              | Except.ok output_file => (Except.ok output_file, bump s2)
          else (Except.ok dubbed_audio_file, bump s2)

/-- `Dubber.postprocessing_output` (lines 562-564): a cached property
whose resolved body is `run_postprocessing`. -/
def postprocessing_output (d : DubberConfig) (C : Collaborators μ) (s : RunState μ) :
    Except Err String × RunState μ :=
  match s.postCache with
  | some v => (Except.ok v, s)
  | none =>
    match run_postprocessing d C s with
    | (Except.ok v, s1) => (Except.ok v, { s1 with postCache := some v })
    | (Except.error e, s1) => (Except.error e, s1)

/-- The deletion loop of `run_clean_directory` (lines 511-518): the
keep test compares each basename from `listdir` against the entries of
`keep_files`; deletions are attempted with no error handling, so the
first failing deletion propagates and the remaining entries are never
visited. -/
def clean_directory_loop (C : Collaborators μ) (keep_files : List String)
    (output_directory : String) :
    List String → RunState μ → Except Err Unit × RunState μ
  | [], s => (Except.ok (), s)
  | filename :: rest, s =>
    let file_path := ospath_join output_directory filename
    if filename ∈ keep_files then
      clean_directory_loop C keep_files output_directory rest s
    else if C.gfile_exists file_path then
      match C.gfile_remove file_path with
      | Except.error e => (Except.error e, s)
      | Except.ok _ => clean_directory_loop C keep_files output_directory rest (delFile s filename)
    else if C.gfile_isdir file_path then
      match C.rmtree file_path with
      | Except.error e => (Except.error e, s)
      | Except.ok _ => clean_directory_loop C keep_files output_directory rest (delFile s filename)
    else
      clean_directory_loop C keep_files output_directory rest s

/-- `Dubber.run_clean_directory` (lines 504-520): the `keep_files`
parameter is overwritten with the single full path
`self.postprocessing_output` (line 510), then every entry of
`listdir(self.output_directory)` not equal to that full path is
removed. -/
def run_clean_directory (d : DubberConfig) (C : Collaborators μ) (s : RunState μ) :
    Except Err Unit × RunState μ :=
  let s := addEv s Ev.cleanDirectory
  match postprocessing_output d C s with
  | (Except.error e, s1) => (Except.error e, s1)
  | (Except.ok out, s1) =>
    let keep_files := [out]
    match C.listdir with
    | Except.error e => (Except.error e, s1)
    | Except.ok entries =>
      match clean_directory_loop C keep_files d.output_directory entries s1 with
      | (Except.error e, s2) => (Except.error e, s2)
      | (Except.ok _, s2) => (Except.ok (), bump s2)

/-- `Dubber.dub_ad` (lines 566-582): the six `run_` calls in order,
then the optional cleanup, then the two accessor reads of
`postprocessing_output` on lines 581 (logging) and 582 (return). -/
def dub_ad (d : DubberConfig) (C : Collaborators μ) (s : RunState μ) :
    Except Err String × RunState μ :=
  match run_preprocessing d C s with
  | (Except.error e, s1) => (Except.error e, s1)
  | (Except.ok _, s1) =>
  match run_speech_to_text d C s1 with
  | (Except.error e, s2) => (Except.error e, s2)
  | (Except.ok _, s2) =>
  match run_translation d C s2 with
  | (Except.error e, s3) => (Except.error e, s3)
  | (Except.ok _, s3) =>
  match run_text_to_speech d C s3 with
  | (Except.error e, s4) => (Except.error e, s4)
  | (Except.ok _, s4) =>
  match run_save_utterance_metadata d C s4 with
  | (Except.error e, s5) => (Except.error e, s5)
  | (Except.ok _, s5) =>
  match run_postprocessing d C s5 with
  | (Except.error e, s6) => (Except.error e, s6)
  | (Except.ok _, s6) =>
  match (if d.clean_up then run_clean_directory d C s6 else (Except.ok (), s6)) with
  | (Except.error e, s7) => (Except.error e, s7)
  | (Except.ok _, s7) =>
  match postprocessing_output d C s7 with
  | (Except.error e, s8) => (Except.error e, s8)
  | (Except.ok _, s8) => postprocessing_output d C s8

/-! ## Concrete instantiation

A concrete run over `μ := Nat`, with deterministic collaborators whose
outputs are all distinct, used to evaluate the orchestrator at
concrete inputs. -/

/-- Concrete deterministic collaborators over `μ := Nat`; every stage
computation changes the metadata value, so distinct computations are
distinguishable by their results. -/
def testCollabs : Collaborators Nat where
  split_audio_video := fun _ od => Except.ok (ospath_join od "video.mp4", ospath_join od "audio.mp3")
  execute_demucs_command := fun _ => Except.ok ()
  assemble_background := fun _ => "out/background.mp3"
  create_pyannote_timestamps := fun _ => Except.ok 1
  cut_and_save_audio := fun m _ _ => Except.ok (m + 1)
  transcribe_audio_chunks := fun m => Except.ok (m + 10)
  diarize_speakers := fun _ _ => Except.ok [("speaker_1", "male")]
  add_speaker_info := fun m _ => Except.ok (m + 100)
  generate_script := fun _ => Except.ok "script"
  translate_script := fun _ => Except.ok "translated"
  add_translations := fun m _ => Except.ok (m + 1000)
  merge_utterances := fun m => Except.ok (m + 10000)
  assign_voices := fun _ => Except.ok ["voice"]
  update_utterance_metadata := fun m _ => Except.ok (m + 100000)
  dub_utterances := fun m _ => Except.ok (m + 1000000)
  write_metadata_file := fun _ _ => Except.ok ()
  insert_audio_at_timestamps := fun _ _ _ => Except.ok "out/vocals.mp3"
  merge_background_and_vocals := fun _ _ _ => Except.ok "out/dubbed_audio.mp3"
  combine_audio_video := fun _ _ _ => Except.ok "out/dubbed_video.mp4"
  listdir := Except.ok []
  gfile_exists := fun _ => true
  gfile_isdir := fun _ => false
  gfile_remove := fun _ => Except.ok ()
  rmtree := fun _ => Except.ok ()

/-- A concrete audio-input run configuration with cleanup enabled. -/
def testConfig : DubberConfig :=
  { input_file := "in.mp3", output_directory := "out", is_video := false,
    merge_utterances := true, clean_up := true }

/-- The same configuration with cleanup disabled. -/
def testConfigNoClean : DubberConfig :=
  { testConfig with clean_up := false }

/-- The fresh state of the concrete run. -/
def s0 : RunState Nat := initialState Nat

/-- The preprocessing artifacts the concrete run produces. -/
def P0 : PreprocessingArtifacts Nat :=
  { video_file := none, audio_file := "in.mp3",
    audio_background_file := "out/background.mp3", utterance_metadata := 2 }

/-- The state after the first access of `preprocesing_output` in the
concrete run. -/
def S1 : RunState Nat :=
  { preprocCache := some P0, sttCache := none, translationCache := none,
    ttsCache := none, postCache := none, progress := 1,
    trace := [Ev.preprocessing], warnings := 0, deleted := [] }

/-- A state in which the final artifact path is already cached, as it
is when `run_clean_directory` reads it during `dub_ad`. -/
def sPost : RunState Nat := { s0 with postCache := some "out/dubbed_audio.mp3" }

/-- Collaborators for a cleanup run whose output directory holds the
final artifact and one temporary file; every deletion succeeds. -/
def cleanCollabsA : Collaborators Nat :=
  { testCollabs with listdir := Except.ok ["dubbed_audio.mp3", "tmp.wav"] }

/-- Collaborators for a cleanup run with two temporary files where
deleting the first one fails. -/
def cleanCollabsB : Collaborators Nat :=
  { testCollabs with
    listdir := Except.ok ["a.wav", "b.wav"],
    gfile_remove := fun p =>
      if p = "out/a.wav" then Except.error (Err.collab "remove failed") else Except.ok () }

/-- Concrete collaborators whose metadata checkpoint write fails. -/
def failWriteCollabs (e : Err) : Collaborators Nat :=
  { testCollabs with write_metadata_file := fun _ _ => Except.error e }

/-- Concrete collaborators whose segmentation call fails. -/
def failPyannoteCollabs (e : Err) : Collaborators Nat :=
  { testCollabs with create_pyannote_timestamps := fun _ => Except.error e }

/-- Concrete collaborators whose transcription call fails. -/
def failTranscribeCollabs (e : Err) : Collaborators Nat :=
  { testCollabs with transcribe_audio_chunks := fun _ => Except.error e }

/-- Concrete collaborators whose translation call fails. -/
def failTranslateCollabs (e : Err) : Collaborators Nat :=
  { testCollabs with translate_script := fun _ => Except.error e }

/-- Concrete collaborators whose speech synthesis call fails. -/
def failDubCollabs (e : Err) : Collaborators Nat :=
  { testCollabs with dub_utterances := fun _ _ => Except.error e }

/-- Concrete collaborators whose audio-merge call fails. -/
def failMergeCollabs (e : Err) : Collaborators Nat :=
  { testCollabs with merge_background_and_vocals := fun _ _ _ => Except.error e }

/-- A status query that reports `pending` once and `active` from the
first re-query on. -/
def qPendingActive : Nat → AssetState :=
  fun k => if k = 0 then AssetState.pending else AssetState.active

/-- A status query that reports `pending` forever. -/
def qPending : Nat → AssetState := fun _ => AssetState.pending

/-- A status query that reports `failed` at once. -/
def qFailed : Nat → AssetState := fun _ => AssetState.failed

/-- A well-formed three-line diarization response with a duplicated
line. -/
def wfInput : String :=
  "(speaker_1, female)\n(speaker_1, female)\n(speaker_2, male)"

/-- First utterance of the specification's attribution test vector. -/
def uHello : Utterance :=
  { text := "Hello", start := 0, stop := 1, speaker_id := none, gender := none }

/-- Second utterance of the specification's attribution test vector. -/
def uWorld : Utterance :=
  { text := "world", start := 1, stop := 2, speaker_id := none, gender := none }

/-- Equality of `Except` results is decidable when both components
have decidable equality. -/
instance {ε α : Type} [DecidableEq ε] [DecidableEq α] : DecidableEq (Except ε α) := fun x y =>
  match x, y with
  | Except.error a, Except.error b =>
    if h : a = b then isTrue (by rw [h]) else isFalse (fun hh => h (Except.error.inj hh))
  | Except.error _, Except.ok _ => isFalse (fun hh => Except.noConfusion hh)
  | Except.ok _, Except.error _ => isFalse (fun hh => Except.noConfusion hh)
  | Except.ok a, Except.ok b =>
    if h : a = b then isTrue (by rw [h]) else isFalse (fun hh => h (Except.ok.inj hh))

/-! ## Helper lemmas -/

theorem countEv_append_same (e : Ev) (l : List Ev) :
    countEv e (l ++ [e]) = countEv e l + 1 := by
  simp [countEv, List.filter_append]

theorem countEv_append_ne {e f : Ev} (h : f ≠ e) (l : List Ev) :
    countEv e (l ++ [f]) = countEv e l := by
  simp [countEv, List.filter_append, h]

theorem preprocesing_output_cached {μ : Type} (d : DubberConfig) (C : Collaborators μ)
    {s : RunState μ} {v : PreprocessingArtifacts μ} (h : s.preprocCache = some v) :
    preprocesing_output d C s = (Except.ok v, s) := by
  unfold preprocesing_output
  rw [h]

theorem run_preprocessing_state {μ : Type} (d : DubberConfig) (C : Collaborators μ)
    (s : RunState μ) :
    (run_preprocessing d C s).2.trace = s.trace ++ [Ev.preprocessing] ∧
    (run_preprocessing d C s).2.preprocCache = s.preprocCache := by
  simp only [run_preprocessing, preprocessCommon]
  repeat' split
  all_goals simp [addEv, bump]

theorem run_speech_to_text_cached {μ : Type} (d : DubberConfig) (C : Collaborators μ)
    {s : RunState μ} {v : PreprocessingArtifacts μ} (h : s.preprocCache = some v) :
    (run_speech_to_text d C s).2.trace = s.trace ++ [Ev.speechToText] ∧
    (run_speech_to_text d C s).2.preprocCache = some v := by
  have h1 : preprocesing_output d C (addEv s Ev.speechToText) =
      (Except.ok v, addEv s Ev.speechToText) :=
    preprocesing_output_cached d C (by simp [addEv, h])
  simp only [run_speech_to_text, h1]
  repeat' split
  all_goals simp [addEv, bump, h]

/-! ## Claims about the orchestrator -/

/-- C1: within one run, a stage's cached output accessor executes the
underlying stage body exactly once in total: a first successful access
of `preprocesing_output` from a fresh cache slot records exactly one
execution of the preprocessing body, a repeated access returns the
cached value without changing the state, and the downstream consumer
`run_speech_to_text` triggers no further preprocessing execution and
still reads the cached value. -/
theorem c1_stage_output_memoized {μ : Type} (d : DubberConfig) (C : Collaborators μ)
    (s : RunState μ) (v : PreprocessingArtifacts μ) (s1 : RunState μ)
    (hc : s.preprocCache = none)
    (h : preprocesing_output d C s = (Except.ok v, s1)) :
    preprocesing_output d C s1 = (Except.ok v, s1) ∧
    countEv Ev.preprocessing s1.trace = countEv Ev.preprocessing s.trace + 1 ∧
    countEv Ev.preprocessing (run_speech_to_text d C s1).2.trace =
      countEv Ev.preprocessing s1.trace ∧
    (preprocesing_output d C (run_speech_to_text d C s1).2).1 = Except.ok v := by
  unfold preprocesing_output at h
  rw [hc] at h
  rcases hrp : run_preprocessing d C s with ⟨r, s2⟩
  rw [hrp] at h
  cases r with
  | error e => simp at h
  | ok w =>
    simp only [Prod.mk.injEq, Except.ok.injEq] at h
    obtain ⟨rfl, rfl⟩ := h
    have htr : s2.trace = s.trace ++ [Ev.preprocessing] := by
      have h2 := (run_preprocessing_state d C s).1
      rw [hrp] at h2
      exact h2
    have hcache : ({ s2 with preprocCache := some w } : RunState μ).preprocCache = some w := rfl
    have hstt := run_speech_to_text_cached d C hcache
    refine ⟨preprocesing_output_cached d C hcache, ?_, ?_, ?_⟩
    · show countEv Ev.preprocessing s2.trace = countEv Ev.preprocessing s.trace + 1
      rw [htr]
      exact countEv_append_same _ _
    · rw [hstt.1]
      exact countEv_append_ne (by decide) _
    · rw [preprocesing_output_cached d C hstt.2]

theorem c1_stage_output_memoized_witness :
    preprocesing_output testConfig testCollabs S1 = (Except.ok P0, S1) ∧
    countEv Ev.preprocessing S1.trace = countEv Ev.preprocessing s0.trace + 1 ∧
    countEv Ev.preprocessing (run_speech_to_text testConfig testCollabs S1).2.trace =
      countEv Ev.preprocessing S1.trace ∧
    (preprocesing_output testConfig testCollabs
      (run_speech_to_text testConfig testCollabs S1).2).1 = Except.ok P0 :=
  c1_stage_output_memoized testConfig testCollabs s0 P0 S1 rfl rfl

/-- C2: fails on the code: the cached output of `translation_output`
(and of `text_to_speech_output`) is the value of the
transcription+diarization computation `run_speech_to_text`, not the
translation (synthesis) computation applied to the predecessor stage's
output: at the concrete run both accessors return 112, the
transcription result, while `run_translation` returns 11112 and
`run_text_to_speech` returns 1100112, and the accessor's trace records
a `speechToText` execution. -/
theorem c2_translation_output_aliases_transcription :
    (translation_output testConfig testCollabs s0).1 = Except.ok 112 ∧
    (speech_to_text_output testConfig testCollabs s0).1 = Except.ok 112 ∧
    (text_to_speech_output testConfig testCollabs s0).1 = Except.ok 112 ∧
    (run_translation testConfig testCollabs s0).1 = Except.ok 11112 ∧
    (run_text_to_speech testConfig testCollabs s0).1 = Except.ok 1100112 ∧
    (translation_output testConfig testCollabs s0).1 ≠
      (run_translation testConfig testCollabs s0).1 ∧
    (translation_output testConfig testCollabs s0).2.trace =
      [Ev.speechToText, Ev.preprocessing] :=
  ⟨rfl, rfl, rfl, rfl, rfl, by decide, rfl⟩

/-- C3: fails on the code: a successful `dub_ad` run does return the
postprocessing path, but the stage executions are not the fixed linear
chain with each stage once: the direct `run_` calls never populate the
accessor caches, so preprocessing runs twice, transcription+diarization
runs four times, and postprocessing runs twice, the second time inside
the cleanup stage. -/
theorem c3_dub_ad_stage_trace :
    (dub_ad testConfig testCollabs s0).1 = Except.ok "out/dubbed_audio.mp3" ∧
    (dub_ad testConfig testCollabs s0).2.trace =
      [Ev.preprocessing, Ev.speechToText, Ev.preprocessing, Ev.translationStage,
       Ev.speechToText, Ev.textToSpeech, Ev.speechToText, Ev.saveMetadata,
       Ev.speechToText, Ev.postprocessing, Ev.cleanDirectory, Ev.postprocessing] ∧
    countEv Ev.speechToText (dub_ad testConfig testCollabs s0).2.trace = 4 ∧
    countEv Ev.postprocessing (dub_ad testConfig testCollabs s0).2.trace = 2 :=
  ⟨rfl, rfl, rfl, rfl⟩

/-- C4: fails on the code: `run_clean_directory` compares the
basenames returned by `listdir` against the full final-artifact path,
so the final artifact itself is deleted; and a failing deletion
propagates immediately, so the remaining entries are never
attempted. -/
theorem c4_clean_directory_deletes_artifact_and_aborts :
    (run_clean_directory testConfig cleanCollabsA sPost).1 = Except.ok () ∧
    (run_clean_directory testConfig cleanCollabsA sPost).2.deleted =
      ["dubbed_audio.mp3", "tmp.wav"] ∧
    (run_clean_directory testConfig cleanCollabsB sPost).1 =
      Except.error (Err.collab "remove failed") ∧
    (run_clean_directory testConfig cleanCollabsB sPost).2.deleted = [] :=
  ⟨rfl, rfl, by decide, by decide⟩

/-- C9: fails on the code: the progress counter of a successful run
ends at 11 with cleanup enabled and at 10 with cleanup disabled,
overrunning the configured totals 6 and 5, because the re-executed
stage bodies each update the progress bar again. -/
theorem c9_progress_counter_overruns :
    progress_bar_total true = 6 ∧
    progress_bar_total false = 5 ∧
    (dub_ad testConfig testCollabs s0).2.progress = 11 ∧
    (dub_ad testConfigNoClean testCollabs s0).2.progress = 10 ∧
    (dub_ad testConfig testCollabs s0).2.progress ≠
      progress_bar_total testConfig.clean_up ∧
    (dub_ad testConfigNoClean testCollabs s0).2.progress ≠
      progress_bar_total testConfigNoClean.clean_up :=
  ⟨rfl, rfl, rfl, rfl, by decide, by decide⟩

/-- C5: for every possible write error, a failing utterance-metadata
checkpoint write does not abort the run: `dub_ad` still executes
postprocessing (and cleanup) with the same stage trace as a fully
successful run, returns the final path, and surfaces the failure as
exactly one warning-level log record, with or without cleanup; whereas
a failure of any other stage's collaborator (segmentation,
transcription, translation, synthesis, audio merge) aborts the run
immediately with the originating error, before any later stage body
executes. -/
theorem c5_save_failure_is_sole_recoverable : ∀ e : Err,
    (dub_ad testConfig (failWriteCollabs e) s0).1 = Except.ok "out/dubbed_audio.mp3" ∧
    (dub_ad testConfig (failWriteCollabs e) s0).2.warnings = 1 ∧
    (dub_ad testConfig (failWriteCollabs e) s0).2.trace =
      [Ev.preprocessing, Ev.speechToText, Ev.preprocessing, Ev.translationStage,
       Ev.speechToText, Ev.textToSpeech, Ev.speechToText, Ev.saveMetadata,
       Ev.speechToText, Ev.postprocessing, Ev.cleanDirectory, Ev.postprocessing] ∧
    (dub_ad testConfigNoClean (failWriteCollabs e) s0).1 = Except.ok "out/dubbed_audio.mp3" ∧
    (dub_ad testConfigNoClean (failWriteCollabs e) s0).2.warnings = 1 ∧
    (dub_ad testConfig (failPyannoteCollabs e) s0).1 = Except.error e ∧
    (dub_ad testConfig (failPyannoteCollabs e) s0).2.trace = [Ev.preprocessing] ∧
    (dub_ad testConfig (failTranscribeCollabs e) s0).1 = Except.error e ∧
    (dub_ad testConfig (failTranscribeCollabs e) s0).2.trace =
      [Ev.preprocessing, Ev.speechToText, Ev.preprocessing] ∧
    (dub_ad testConfig (failTranslateCollabs e) s0).1 = Except.error e ∧
    (dub_ad testConfig (failTranslateCollabs e) s0).2.trace =
      [Ev.preprocessing, Ev.speechToText, Ev.preprocessing,
       Ev.translationStage, Ev.speechToText] ∧
    (dub_ad testConfig (failDubCollabs e) s0).1 = Except.error e ∧
    (dub_ad testConfig (failDubCollabs e) s0).2.trace =
      [Ev.preprocessing, Ev.speechToText, Ev.preprocessing, Ev.translationStage,
       Ev.speechToText, Ev.textToSpeech, Ev.speechToText] ∧
    (dub_ad testConfig (failMergeCollabs e) s0).1 = Except.error e ∧
    (dub_ad testConfig (failMergeCollabs e) s0).2.trace =
      [Ev.preprocessing, Ev.speechToText, Ev.preprocessing, Ev.translationStage,
       Ev.speechToText, Ev.textToSpeech, Ev.speechToText, Ev.saveMetadata,
       Ev.speechToText, Ev.postprocessing] :=
  fun _ =>
    ⟨rfl, rfl, rfl, rfl, rfl, rfl, rfl, rfl, rfl, rfl, rfl, rfl, rfl, rfl, rfl⟩

/-- C10: `run_save_utterance_metadata` returns the metadata file path
(the output directory joined with the fixed file name) in every case,
whether or not the checkpoint write succeeded. -/
theorem c10_save_always_returns_path {μ : Type} (d : DubberConfig)
    (C : Collaborators μ) (s : RunState μ) :
    (run_save_utterance_metadata d C s).1 =
      Except.ok (ospath_join d.output_directory utterance_metadata_file_name) := by
  simp only [run_save_utterance_metadata]
  rcases h : text_to_speech_output d C (addEv s Ev.saveMetadata) with ⟨r, s1⟩
  cases r with
  | error e => simp [h]
  | ok um =>
    cases hw : C.write_metadata_file (ospath_join d.output_directory
        utterance_metadata_file_name) um with
    | error e => simp [h, hw]
    | ok u => simp [h, hw]

/-! ## Claims about the poller, the parser and attribution -/

theorem waitLoop_pending {q : Nat → AssetState} (hp : ∀ k, q k = AssetState.pending) :
    ∀ b k, waitLoop q b k = Except.error PollError.remoteAssetTimeout := by
  intro b
  induction b with
  | zero => intro k; simp [waitLoop, hp k]
  | succ n ih => intro k; simp [waitLoop, hp k, ih]

/-- C6: for every status-query function: a handle that is pending on
the first query and active on the first re-query yields success after
exactly one re-query whenever one polling interval fits in the budget;
a handle that stays pending forever yields `remoteAssetTimeout`; a
handle that reports failed on the first query yields
`remoteAssetFailed` for every budget, hence without waiting out the
timeout; and the two failure kinds are distinct. -/
theorem c6_poller_outcomes :
    (∀ (q : Nat → AssetState) (max_wait poll_interval : Nat),
      q 0 = AssetState.pending → q 1 = AssetState.active →
      0 < poll_interval → poll_interval ≤ max_wait →
      wait_until_active q max_wait poll_interval = Except.ok 1) ∧
    (∀ (q : Nat → AssetState) (max_wait poll_interval : Nat),
      (∀ k, q k = AssetState.pending) →
      wait_until_active q max_wait poll_interval =
        Except.error PollError.remoteAssetTimeout) ∧
    (∀ (q : Nat → AssetState) (max_wait poll_interval : Nat),
      q 0 = AssetState.failed →
      wait_until_active q max_wait poll_interval =
        Except.error PollError.remoteAssetFailed) ∧
    PollError.remoteAssetTimeout ≠ PollError.remoteAssetFailed := by
  refine ⟨?_, ?_, ?_, by decide⟩
  · intro q mw i h0 h1 hi hle
    have hdiv : 0 < mw / i := Nat.div_pos hle hi
    obtain ⟨b, hb⟩ := Nat.exists_eq_succ_of_ne_zero (Nat.pos_iff_ne_zero.mp hdiv)
    unfold wait_until_active
    rw [hb]
    cases b with
    | zero => simp [waitLoop, h0, h1]
    | succ n => simp [waitLoop, h0, h1]
  · intro q mw i hp
    exact waitLoop_pending hp _ _
  · intro q mw i h0
    unfold wait_until_active
    cases mw / i with
    | zero => simp [waitLoop, h0]
    | succ n => simp [waitLoop, h0]

theorem c6_poller_outcomes_witness :
    wait_until_active qPendingActive 300 10 = Except.ok 1 ∧
    wait_until_active qPending 300 10 = Except.error PollError.remoteAssetTimeout ∧
    wait_until_active qFailed 300 10 = Except.error PollError.remoteAssetFailed :=
  ⟨c6_poller_outcomes.1 qPendingActive 300 10 rfl rfl (by decide) (by decide),
   c6_poller_outcomes.2.1 qPending 300 10 (fun _ => rfl),
   c6_poller_outcomes.2.2.1 qFailed 300 10 rfl⟩

theorem processLines_ok_of_all_some {ls : List String}
    (h : ∀ l ∈ ls, (parseLine l).isSome = true) :
    processLines ls = Except.ok (ls.filterMap parseLine) ∧
    (ls.filterMap parseLine).length = ls.length := by
  induction ls with
  | nil => simp [processLines]
  | cons a ls ih =>
    obtain ⟨p, hp⟩ := Option.isSome_iff_exists.mp (h a (List.mem_cons_self a ls))
    have hrest := ih (fun l hl => h l (List.mem_cons_of_mem a hl))
    simp [processLines, hp, hrest.1, List.filterMap_cons, hrest.2, Except.map]

theorem processLines_error_of_malformed {ls : List String} {l : String}
    (hm : l ∈ ls) (hn : parseLine l = none) :
    ∃ m, parseLine m = none ∧ m ∈ ls ∧
      processLines ls = Except.error (ParseError.malformedLine m) := by
  induction ls with
  | nil => cases hm
  | cons a ls ih =>
    cases hpa : parseLine a with
    | none => exact ⟨a, hpa, List.mem_cons_self a ls, by simp [processLines, hpa]⟩
    | some p =>
      have hl : l ∈ ls := by
        rcases List.mem_cons.mp hm with h | h
        · rw [h] at hn; rw [hn] at hpa; cases hpa
        · exact h
      obtain ⟨m, h1, h2, h3⟩ := ih hl
      exact ⟨m, h1, List.mem_cons_of_mem a h2,
        by simp [processLines, hpa, h3, Except.map]⟩

/-- C7: the diarization response parser returns, for input whose
non-empty lines are all well formed, exactly one tuple per line in
input order (duplicates preserved); the empty string parses to the
empty sequence; and an input with a malformed line yields a
`ParseError` naming a malformed line of the input, with no partial
result. -/
theorem c7_parser_outcomes :
    (∀ response : String,
      (∀ l ∈ splitLines response, (parseLine l).isSome = true) →
      process_speaker_diarization_response response =
        Except.ok ((splitLines response).filterMap parseLine) ∧
      ((splitLines response).filterMap parseLine).length =
        (splitLines response).length) ∧
    process_speaker_diarization_response "" = Except.ok [] ∧
    (∀ (response l : String), l ∈ splitLines response → parseLine l = none →
      ∃ m, parseLine m = none ∧ m ∈ splitLines response ∧
        process_speaker_diarization_response response =
          Except.error (ParseError.malformedLine m)) := by
  refine ⟨?_, by decide, ?_⟩
  · intro response h
    exact processLines_ok_of_all_some h
  · intro response l hm hn
    exact processLines_error_of_malformed hm hn

theorem c7_parser_outcomes_witness :
    (process_speaker_diarization_response wfInput =
      Except.ok ((splitLines wfInput).filterMap parseLine) ∧
     ((splitLines wfInput).filterMap parseLine).length =
      (splitLines wfInput).length) ∧
    (∃ m, parseLine m = none ∧ m ∈ splitLines "(only_one_token)" ∧
      process_speaker_diarization_response "(only_one_token)" =
        Except.error (ParseError.malformedLine m)) :=
  ⟨c7_parser_outcomes.1 wfInput (by decide),
   c7_parser_outcomes.2.2 "(only_one_token)" "(only_one_token)" (by decide) (by decide)⟩

theorem zipWith_getElem?_eq {α β γ : Type} (f : α → β → γ) :
    ∀ (l1 : List α) (l2 : List β) (i : Nat),
      (List.zipWith f l1 l2)[i]? =
        match l1[i]?, l2[i]? with
        | some a, some b => some (f a b)
        | _, _ => none := by
  intro l1
  induction l1 with
  | nil => intro l2 i; simp
  | cons a l1 ih =>
    intro l2 i
    cases l2 with
    | nil => simp
    | cons b l2 =>
      cases i with
      | zero => simp
      | succ n => simpa using ih l2 n

/-- C8: `add_speaker_info` fails with an attribution-mismatch error
whenever the two lists differ in length, and on equal-length input it
returns one record per utterance, positionally attaching `speaker_id`
and `gender` from the speaker tuple at the same index while leaving
`text`, `start` and `stop` unchanged. -/
theorem c8_add_speaker_info_spec :
    (∀ (um : List Utterance) (si : List (String × String)),
      um.length ≠ si.length →
      add_speaker_info um si = Except.error (AttributionError.attributionMismatch
        "The length of utterance metadata and speaker info must be the same.")) ∧
    (∀ (um : List Utterance) (si : List (String × String)) (out : List Utterance),
      add_speaker_info um si = Except.ok out →
      out.length = um.length ∧
      ∀ i, i < um.length →
        ∃ u p w, um[i]? = some u ∧ si[i]? = some p ∧ out[i]? = some w ∧
          w.text = u.text ∧ w.start = u.start ∧ w.stop = u.stop ∧
          w.speaker_id = some p.1 ∧ w.gender = some p.2) := by
  constructor
  · intro um si hne
    simp [add_speaker_info, hne]
  · intro um si out h
    by_cases hl : um.length = si.length
    · simp only [add_speaker_info, hl, if_pos] at h
      obtain rfl := Except.ok.inj h
      constructor
      · rw [List.length_zipWith, hl, Nat.min_self]
      · intro i hi
        have hiu : i < um.length := hi
        have his : i < si.length := hl ▸ hi
        refine ⟨um[i], si[i], attachSpeaker um[i] si[i],
          List.getElem?_eq_getElem hiu, List.getElem?_eq_getElem his, ?_,
          rfl, rfl, rfl, rfl, rfl⟩
        rw [zipWith_getElem?_eq, List.getElem?_eq_getElem hiu,
          List.getElem?_eq_getElem his]
    · simp [add_speaker_info, hl] at h

theorem c8_add_speaker_info_spec_witness :
    add_speaker_info [uHello, uWorld] [("speaker1", "male")] =
      Except.error (AttributionError.attributionMismatch
        "The length of utterance metadata and speaker info must be the same.") ∧
    ((List.zipWith attachSpeaker [uHello, uWorld]
        [("s1", "male"), ("s2", "female")]).length = [uHello, uWorld].length ∧
     ∀ i, i < [uHello, uWorld].length →
      ∃ u p w, [uHello, uWorld][i]? = some u ∧
        [("s1", "male"), ("s2", "female")][i]? = some p ∧
        (List.zipWith attachSpeaker [uHello, uWorld]
          [("s1", "male"), ("s2", "female")])[i]? = some w ∧
        w.text = u.text ∧ w.start = u.start ∧ w.stop = u.stop ∧
        w.speaker_id = some p.1 ∧ w.gender = some p.2) :=
  ⟨c8_add_speaker_info_spec.1 [uHello, uWorld] [("speaker1", "male")] (by decide),
   c8_add_speaker_info_spec.2 [uHello, uWorld] [("s1", "male"), ("s2", "female")]
     (List.zipWith attachSpeaker [uHello, uWorld] [("s1", "male"), ("s2", "female")]) rfl⟩

end Ariel
